import Mathlib

/-!
# Verification of the OpenCBM / xum1541 transfer-protocol engine

Shallow embedding of the IEC transfer-protocol code:

* `src/xum1541/iec.c` — the standard serial protocol engine
  (`iec2hw`, `check_if_bus_free`, `send_byte`, `cbm_raw_write`,
  `cbm_raw_read`, `xu1541_setrelease`);
* `src/xum1541/board-minimus.h` — the physical line masks (`IO_DATA`, …);
* `src/opencbm/libtrans/srq.c` — the burst (SRQ) backend
  (`upload`, `readblock`, `writeblock`).

Hardware interaction (line sampling, bounded waits, the USB byte channel,
the abort predicate `TimerWorker`) is modelled by oracle environments:
each line sample or bounded wait the code performs consumes one oracle
value describing the peer's observable behaviour at that point.
-/

namespace IecSpec

/-! ## Physical line masks (board-minimus.h, lines 51-55)

`IO_DATA = _BV(2)`, `IO_CLK = _BV(3)`, `IO_ATN = _BV(4)`,
`IO_SRQ = _BV(5)`, `IO_RESET = _BV(6)`. -/

def IO_DATA : Nat := 2 ^ 2
def IO_CLK : Nat := 2 ^ 3
def IO_ATN : Nat := 2 ^ 4
def IO_SRQ : Nat := 2 ^ 5
def IO_RESET : Nat := 2 ^ 6

/-! ## Logical line specifiers (iec.c, lines 21-24) -/

def IEC_DATA : Nat := 0x01
def IEC_CLOCK : Nat := 0x02
def IEC_ATN : Nat := 0x04
def IEC_RESET : Nat := 0x08

/-! ## The logical-to-physical lookup table (iec.c, lines 27-44) -/

def iec2hw_table : List Nat :=
  [ 0,
    IO_DATA,
    IO_CLK,
    IO_DATA ||| IO_CLK,
    IO_ATN,
    IO_DATA ||| IO_ATN,
    IO_CLK ||| IO_ATN,
    IO_DATA ||| IO_CLK ||| IO_ATN,
    IO_RESET,
    IO_DATA ||| IO_RESET,
    IO_CLK ||| IO_RESET,
    IO_DATA ||| IO_CLK ||| IO_RESET,
    IO_ATN ||| IO_RESET,
    IO_DATA ||| IO_ATN ||| IO_RESET,
    IO_CLK ||| IO_ATN ||| IO_RESET,
    IO_DATA ||| IO_CLK ||| IO_ATN ||| IO_RESET ]

/-- `iec2hw` (iec.c, lines 46-50) reads `iec2hw_table[iec]` with no bounds
check; the fallible embedding returns `none` exactly when the C code would
index past the end of the 16-entry table. -/
def iec2hw (iec : Nat) : Option Nat :=
  iec2hw_table[iec]?

/-- `xu1541_setrelease` (iec.c, lines 477-481) forwards both caller-supplied
bytes to `iec2hw` unchecked and performs the combined transition on the two
physical masks. -/
def xu1541_setrelease (set release : Nat) : Option (Nat × Nat) := do
  let hwSet ← iec2hw set
  let hwRelease ← iec2hw release
  pure (hwSet, hwRelease)

/-- The physical mask belonging to one combination of logical lines: the OR
of the individual masks of the lines whose bits are set. -/
def logicalMask (i : Nat) : Nat :=
  (if i &&& IEC_DATA ≠ 0 then IO_DATA else 0) |||
  (if i &&& IEC_CLOCK ≠ 0 then IO_CLK else 0) |||
  (if i &&& IEC_ATN ≠ 0 then IO_ATN else 0) |||
  (if i &&& IEC_RESET ≠ 0 then IO_RESET else 0)

/-! ## Bus-free check (iec.c, lines 62-105)

`check_if_bus_free` samples `iec_get(IO_DATA)` four times: twice during the
settle window after releasing all lines, once while ATN is held, and once
after ATN is released again.  The oracle records whether DATA was observed
asserted (pulled low, `iec_get ≠ 0`) at each of those four samples. -/

structure BusFreeEnv where
  /-- DATA asserted at the first check, 50 µs after releasing all lines. -/
  dataAtCheck1 : Bool
  /-- DATA asserted at the second check, after another 50 µs. -/
  dataAtCheck2 : Bool
  /-- DATA asserted while ATN is held (100 µs after `iec_set(IO_ATN)`). -/
  dataDuringAtn : Bool
  /-- DATA asserted 100 µs after ATN is released again. -/
  dataAfterAtn : Bool

/-- `check_if_bus_free` (iec.c, lines 62-105): returns 0 if DATA is held at
either settle check, 0 if no drive answers the ATN probe, and 1 exactly when
the drive that answered releases DATA again after ATN is released. -/
def check_if_bus_free (e : BusFreeEnv) : Bool :=
  if e.dataAtCheck1 then false
  else if e.dataAtCheck2 then false
  else if !e.dataDuringAtn then false
  else !e.dataAfterAtn

/-! ## Bit-level byte send and receive

`send_byte` (iec.c, lines 188-219) transmits the 8 bits of `b` low bit
first: on each bit it asserts DATA iff `(b & 1) == 0` (the inverted bit
value), pulses CLOCK, and shifts `b` right.  `sendBits b n` is the list of
DATA-asserted values put on the wire for the low `n` bits of `b`. -/

def sendBits : Nat → Nat → List Bool
  | _, 0 => []
  | b, n + 1 => (b % 2 == 0) :: sendBits (b / 2) n

/-- The receive loop of `cbm_raw_read` (iec.c, lines 403-414): for each bit,
shift the accumulator right and set bit 7 when DATA is sampled released
(`iec_get(IO_DATA) == 0`).  `dataAsserted` lists the sampled DATA states in
arrival order. -/
def recvBits : List Bool → Nat → Nat
  | [], b => b
  | d :: rest, b => recvBits rest (b / 2 + if d then 0 else 0x80)

/-! ## The read operation `cbm_raw_read` (iec.c, lines 347-440)

Each iteration of the do-while loop interacts with the bus at five points,
recorded by one `ReadIterEnv` oracle value:

* the up-to-1 s wait for CLOCK to be released (`clkReleaseOk` is false when
  the 50000-step timeout expires or `TimerWorker` signals an abort);
* the ~400 µs EOI window `iec_wait_clk` followed by the `iec_get(IO_CLK)`
  test (`clkInWindow` is false when CLOCK was still not asserted, which
  latches `eoi`);
* the 8-bit transfer with its 2 ms bounds (`byteOk` is the conjunction of
  all the `iec_wait_timeout_2ms` results, `byte` the assembled value);
* `usbSendByte` (`usbOk` is false when the host signalled an abort). -/

structure ReadIterEnv where
  clkReleaseOk : Bool
  clkInWindow : Bool
  byteOk : Bool
  byte : Nat
  usbOk : Bool

/-- One pass through the body of `cbm_raw_read`'s do-while loop plus the
loop condition `count != len && ok && !eoi` and the post-loop
`if (!ok) count = 0`.  Arguments mirror the C locals: `len` the requested
count, `count` the bytes delivered so far (a `uint16_t`, hence the
`% 2 ^ 16`), `eoi` the cross-call latch.  Returns the value
`cbm_raw_read` returns together with the final state of the `eoi` latch. -/
def cbm_raw_read_loop (env : Nat → ReadIterEnv) (len : Nat) :
    Nat → Nat → Bool → Nat → Nat × Bool
  | _, count, eoi, 0 => (count, eoi)
  | i, count, eoi, fuel + 1 =>
    let e := env i
    if !e.clkReleaseOk then (0, eoi)
    else if eoi then (0, eoi)
    else
      let eoi' := if !e.clkInWindow then true else eoi
      if e.byteOk then
        if !e.usbOk then (count, eoi')
        else
          let count' := (count + 1) % 2 ^ 16
          if count' != len && !eoi' then
            cbm_raw_read_loop env len (i + 1) count' eoi' fuel
          else (count', eoi')
      else (0, eoi')

/-- `cbm_raw_read` (iec.c, lines 347-440).  `eoi` is the process-wide latch
as it stands on entry; the result pairs the returned byte count with the
latch's state on exit.  `2 ^ 16 + 1` fuel steps dominate the loop: every
iteration that does not leave the loop advances `count` by one modulo
`2 ^ 16`, and the loop leaves as soon as `count` equals `len`. -/
def cbm_raw_read (env : Nat → ReadIterEnv) (len : Nat) (eoi : Bool) :
    Nat × Bool :=
  cbm_raw_read_loop env len 0 0 eoi (2 ^ 16 + 1)

/-! ## The write operation `cbm_raw_write` (iec.c, lines 248-345)

The observable bus-level actions of one call, in program order. -/

inductive WriteAct where
  /-- The initial device probe: CLOCK (and ATN if requested) asserted, then
  `iec_wait_timeout_2ms(IO_DATA, IO_DATA)`; the field records whether some
  device pulled DATA within the 2 ms window. -/
  | probe (devPresent : Bool)
  /-- The extended EOI delay sequence (iec.c, lines 290-297): wait for the
  listener to assert DATA, then wait for it to be released, before CLOCK is
  re-asserted.  `remaining` is the value of `len` at that point. -/
  | eoiSeq (remaining : Nat)
  /-- One `send_byte` invocation. -/
  | sendByte
  /-- The TALK turnaround: unbounded wait for the device to assert CLOCK. -/
  | talkWait
  deriving DecidableEq, Repr

/-- Per-iteration oracle for `cbm_raw_write`'s while loop. -/
structure WriteIterEnv where
  /-- `iec_get(IO_DATA)` at the start of the iteration (device still holds
  DATA). -/
  dataPulled : Bool
  /-- `wait_for_listener` returned true (no abort while waiting for the
  listener to release DATA). -/
  listenerOk : Bool
  /-- `usbRecvByte` succeeded (the host did not signal an abort). -/
  recvOk : Bool
  /-- `send_byte` saw the device acknowledge by pulling DATA within 2 ms. -/
  sendAck : Bool

/-- Whole-call oracle for `cbm_raw_write`. -/
structure WriteEnv where
  /-- The initial probe saw a device pull DATA within 2 ms. -/
  devPresent : Bool
  iters : Nat → WriteIterEnv
  /-- The TALK turnaround saw the device assert CLOCK (no abort). -/
  talkClkOk : Bool

/-- The `while (len && rv)` loop of `cbm_raw_write` (iec.c, lines 273-319).
`len` counts the bytes still to send, `rv` is the running return value (the
requested length until an error zeroes it), `tr` the action trace so far. -/
def cbm_raw_write_loop (env : Nat → WriteIterEnv) (atn : Bool) :
    Nat → Nat → Nat → List WriteAct → Nat → Nat × List WriteAct
  | _, rv, _, tr, 0 => (rv, tr)
  | len, rv, i, tr, fuel + 1 =>
    if len == 0 || rv == 0 then (rv, tr)
    else
      let e := env i
      if e.dataPulled then
        if !e.listenerOk then (0, tr)
        else
          let tr := if len == 1 && !atn then tr ++ [.eoiSeq len] else tr
          if !e.recvOk then (0, tr)
          else
            let tr := tr ++ [.sendByte]
            if e.sendAck then
              cbm_raw_write_loop env atn (len - 1) rv (i + 1) tr fuel
            else
              cbm_raw_write_loop env atn len 0 (i + 1) tr fuel
      else
        cbm_raw_write_loop env atn len 0 (i + 1) tr fuel

/-- `cbm_raw_write` (iec.c, lines 248-345) with the ATN and TALK flags
already decoded from `flags`.  Returns the C return value (`rv`: the
requested length on success, 0 on any failure) together with the trace of
bus-level actions.  The probe happens before the loop is ever entered; the
TALK turnaround runs only when `rv != 0` and the TALK flag is set.
`len + 1` fuel steps dominate the loop: every iteration either decrements
`len` or zeroes `rv`, and the loop stops at `len == 0` or `rv == 0`. -/
def cbm_raw_write (env : WriteEnv) (len : Nat) (atn talk : Bool) :
    Nat × List WriteAct :=
  let tr := [WriteAct.probe env.devPresent]
  if !env.devPresent then (0, tr)
  else
    let r := cbm_raw_write_loop env.iters atn len len 0 tr (len + 1)
    if r.1 != 0 && talk then
      (if env.talkClkOk then r.1 else 0, r.2 ++ [.talkWait])
    else r

/-- A read iteration in which every bounded wait succeeds: the talker
releases CLOCK within 1 s, asserts it again within the EOI window, delivers
all 8 bits within their 2 ms bounds, and the host accepts the byte. -/
def ReadIterOk (e : ReadIterEnv) : Prop :=
  e.clkReleaseOk = true ∧ e.clkInWindow = true ∧ e.byteOk = true ∧
    e.usbOk = true

/-- A write iteration in which every interaction succeeds: the device holds
DATA, the listener releases DATA without an abort, the host supplies the
byte, and the device acknowledges it. -/
def WriteIterOk (e : WriteIterEnv) : Prop :=
  e.dataPulled = true ∧ e.listenerOk = true ∧ e.recvOk = true ∧
    e.sendAck = true

instance (e : ReadIterEnv) : Decidable (ReadIterOk e) := by
  unfold ReadIterOk
  infer_instance

instance (e : WriteIterEnv) : Decidable (WriteIterOk e) := by
  unfold WriteIterOk
  infer_instance

/-- Recognizer for the extended EOI delay sequence in a write trace. -/
def WriteAct.isEoiSeq : WriteAct → Bool
  | .eoiSeq _ => true
  | _ => false

/-! ## The burst (SRQ) backend, src/opencbm/libtrans/srq.c -/

/-- The `cbm_device_type_e` cases `upload` distinguishes
(srq.c, lines 33-56). -/
inductive DriveType where
  | cbm1541
  | cbm1581
  | cbm1570
  | cbm1571
  | unknown
  deriving DecidableEq, Repr

/-- `upload` (srq.c, lines 22-76).  `identify` is `cbm_identify`'s outcome
(`none` when it reports failure); `progLen` stands for
`sizeof(srq1571_drive_prog)` — the program image itself comes from the
generated `srq1571.inc`, so only its length matters here; `reported` is the
byte count `cbm_upload` returns.  The result is `none` when the
`assert(srq_drive_prog_length < 0x100)` fires, and otherwise the returned
code paired with whether `cbm_upload` was invoked at all. -/
def upload (identify : Option DriveType) (progLen reported : Nat) :
    Option (Nat × Bool) :=
  match identify with
  | none => some (1, false)
  | some .cbm1541 => some (1, false)
  | some .cbm1581 => some (1, false)
  | some .cbm1570 | some .cbm1571 =>
    if progLen < 0x100 then
      some (if reported == progLen then 0 else 1, true)
    else none
  | some .unknown => some (1, false)

/-- The loop of `writeblock` (srq.c, lines 146-158):
`for (; length < 0x100; ++length) cbm_srq_burst_write(fd, *p++);`.
`buf` is the byte buffer `p` points into, `p` the current offset; the
result lists the bytes handed to `cbm_srq_burst_write` in order. -/
def writeblockLoop (buf : Nat → Nat) (p length : Nat) : List Nat :=
  if length < 0x100 then buf p :: writeblockLoop buf (p + 1) (length + 1)
  else []
termination_by 0x100 - length

/-- `writeblock` (srq.c, lines 146-158): runs the loop from offset 0 and
returns 0 unconditionally. -/
def writeblock (buf : Nat → Nat) (length : Nat) : List Nat × Nat :=
  (writeblockLoop buf 0 length, 0)

/-- `readblock` (srq.c, lines 107-123), non-handshaked branch: delegates a
transfer of `0x100 - length` bytes to `cbm_srq_burst_read_track`.  The
subtraction is C `unsigned int` arithmetic, modelled modulo `2 ^ 32`;
the result is the delegated byte count. -/
def readblock_count (length : Nat) : Nat :=
  ((0x100 + 2 ^ 32) - length % 2 ^ 32) % 2 ^ 32

/-! ## Theorems -/

/-- C3: for every 4-bit combination `i` of the logical lines
{DATA = 1, CLOCK = 2, ATN = 4, RESET = 8}, `iec2hw i` equals the bitwise OR
of the individual physical masks of exactly those lines whose logical bit
is set in `i` (exhaustive check of all 16 table entries). -/
theorem iec2hw_table_matches_or_of_masks :
    ∀ i : Fin 16, iec2hw i.val = some (logicalMask i.val) := by decide

/-- C2: transmitting any byte `b` with `send_byte`'s bit loop (8 bits
low-to-high, DATA driven to the bit's inverted value) and decoding the
resulting DATA sequence with `cbm_raw_read`'s receive bit loop (shift
right, set bit 7 when DATA is sampled released) yields `b` again, for all
256 byte values. -/
theorem send_receive_roundtrip :
    ∀ b : Fin 256, recvBits (sendBits b.val 8) 0 = b.val := by
  set_option maxRecDepth 8192 in decide

/-- C7: `check_if_bus_free` returns 1 exactly when DATA is observed
released at both settle-window checks before the ATN probe, some drive
asserts DATA while ATN is held, and DATA is released again after ATN is
released; in particular it returns 0 whenever DATA is asserted at either
pre-probe check or at the post-release check, and when no drive answers
the probe. -/
theorem check_if_bus_free_iff :
    ∀ d1 d2 d3 d4 : Bool,
      check_if_bus_free ⟨d1, d2, d3, d4⟩ = true ↔
        d1 = false ∧ d2 = false ∧ d3 = true ∧ d4 = false := by decide

/-- C9: the unchecked table lookup `iec2hw` is in bounds — the fallible
embedding's error branch unreachable — exactly when its raw argument is at
most 15, and `xu1541_setrelease`, which forwards both caller-supplied bytes
to `iec2hw` unchecked, stays in bounds exactly when both bytes are at most
15. -/
theorem iec2hw_in_bounds_iff_le_15 :
    ∀ s r : Nat,
      ((iec2hw s).isSome ↔ s ≤ 15) ∧
      ((xu1541_setrelease s r).isSome ↔ s ≤ 15 ∧ r ≤ 15) := by
  have htab : iec2hw_table.length = 16 := by decide
  have hone : ∀ s : Nat, (iec2hw s).isSome ↔ s ≤ 15 := by
    intro s
    rw [iec2hw, Option.isSome_iff_ne_none, ne_eq, List.getElem?_eq_none_iff,
      htab]
    omega
  intro s r
  refine ⟨hone s, ?_⟩
  rw [xu1541_setrelease]
  cases hs : iec2hw s with
  | none =>
    have : ¬s ≤ 15 := by
      rw [← hone s, hs]
      simp
    simp [Option.bind, hs, this]
  | some v =>
    have hs15 : s ≤ 15 := by rw [← hone s, hs]; rfl
    cases hr : iec2hw r with
    | none =>
      have : ¬r ≤ 15 := by
        rw [← hone r, hr]
        simp
      simp [Option.bind, hs, hr, this]
    | some w =>
      have hr15 : r ≤ 15 := by rw [← hone r, hr]; rfl
      simp [Option.bind, hs, hr, hs15, hr15]

/-- C10: a `cbm_raw_write` call with requested length 0 still performs the
initial device probe, transfers no byte, never performs the TALK
turnaround, and returns 0 even when the probe succeeds — its result is the
same as that of a failed write. -/
theorem zero_length_write_returns_zero (env : WriteEnv) (atn talk : Bool) :
    cbm_raw_write env 0 atn talk = (0, [.probe env.devPresent]) := by
  cases h : env.devPresent <;>
    simp [cbm_raw_write, cbm_raw_write_loop, h]

/-- C6: on a supported (1570/1571) drive, `upload` returns success (0) iff
the upload primitive reported exactly the image length written; any lesser
reported count yields failure (1); and an image of 256 bytes or more trips
the assertion (`none`) before the upload primitive is ever invoked. -/
theorem upload_success_iff_full_length (dt : DriveType)
    (hdt : dt = DriveType.cbm1570 ∨ dt = DriveType.cbm1571)
    (progLen reported : Nat) :
    (progLen < 256 →
      (upload (some dt) progLen reported = some (0, true) ↔
        reported = progLen) ∧
      (reported < progLen →
        upload (some dt) progLen reported = some (1, true))) ∧
    (256 ≤ progLen → upload (some dt) progLen reported = none) := by
  have hup : upload (some dt) progLen reported =
      if progLen < 0x100 then
        some (if reported == progLen then 0 else 1, true)
      else none := by
    rcases hdt with h | h <;> subst h <;> rfl
  refine ⟨fun hlt => ⟨?_, fun hr => ?_⟩, fun hge => ?_⟩
  · rw [hup, if_pos hlt]
    by_cases hrp : reported = progLen <;> simp [hrp]
  · have hne : reported ≠ progLen := by omega
    rw [hup, if_pos hlt]
    simp [hne]
  · have hnlt : ¬progLen < 0x100 := by omega
    rw [hup, if_neg hnlt]

/-- C6 witness: concrete instances — a 255-byte image with 255 bytes
reported succeeds, with 200 reported fails, and a 256-byte image trips the
assertion with the upload primitive never invoked. -/
theorem upload_success_iff_full_length_witness :
    upload (some DriveType.cbm1571) 255 255 = some (0, true) ∧
    upload (some DriveType.cbm1571) 255 200 = some (1, true) ∧
    upload (some DriveType.cbm1570) 256 256 = none := by
  refine ⟨?_, ?_, ?_⟩
  · exact ((upload_success_iff_full_length DriveType.cbm1571 (Or.inr rfl)
      255 255).1 (by decide)).1.mpr rfl
  · exact ((upload_success_iff_full_length DriveType.cbm1571 (Or.inr rfl)
      255 200).1 (by decide)).2 (by decide)
  · exact (upload_success_iff_full_length DriveType.cbm1570 (Or.inl rfl)
      256 256).2 (by decide)

/-- The `writeblock` loop writes the bytes at offsets `p`, `p + 1`, … until
the loop counter reaches the 256-byte boundary: `0x100 - length` bytes. -/
theorem writeblockLoop_eq_range (buf : Nat → Nat) :
    ∀ n p length, 256 - length = n →
      writeblockLoop buf p length =
        (List.range n).map (fun k => buf (p + k)) := by
  intro n
  induction n with
  | zero =>
    intro p length h
    rw [writeblockLoop]
    have : ¬length < 0x100 := by omega
    simp [this]
  | succ n ih =>
    intro p length h
    rw [writeblockLoop]
    have hlt : length < 0x100 := by omega
    rw [if_pos hlt, ih (p + 1) (length + 1) (by omega),
      List.range_succ_eq_map, List.map_cons, List.map_map]
    congr 1
    apply List.map_congr_left
    intro k _
    simp only [Function.comp_apply]
    congr 1
    omega

/-- C8: for every starting value `length < 256`, `writeblock` hands exactly
`256 - length` consecutive bytes of the buffer (offsets 0, 1, …) to the
one-byte burst write primitive and returns 0, and `readblock` delegates a
transfer of exactly `256 - length` bytes; for `length ≥ 256`, `writeblock`
performs zero writes and still returns 0. -/
theorem writeblock_readblock_boundary (buf : Nat → Nat) (length : Nat) :
    (length < 256 →
      (writeblock buf length).1 = (List.range (256 - length)).map buf ∧
      (writeblock buf length).2 = 0 ∧
      readblock_count length = 256 - length) ∧
    (256 ≤ length → writeblock buf length = ([], 0)) := by
  constructor
  · intro hlt
    refine ⟨?_, rfl, ?_⟩
    · rw [writeblock]
      have := writeblockLoop_eq_range buf (256 - length) 0 length rfl
      simpa using this
    · rw [readblock_count]
      omega
  · intro hge
    rw [writeblock, writeblockLoop_eq_range buf 0 0 length (by omega)]
    rfl

/-- C8 witness: concrete instances at `length = 254` (two writes, of the
bytes at offsets 0 and 1; two bytes delegated on read) and at
`length = 300` (no writes, return value 0). -/
theorem writeblock_readblock_boundary_witness :
    ((writeblock (fun i => 10 * i) 254).1 =
        (List.range (256 - 254)).map (fun i => 10 * i) ∧
      (writeblock (fun i => 10 * i) 254).2 = 0 ∧
      readblock_count 254 = 256 - 254) ∧
    writeblock (fun i => 10 * i) 300 = ([], 0) :=
  ⟨(writeblock_readblock_boundary (fun i => 10 * i) 254).1 (by decide),
   (writeblock_readblock_boundary (fun i => 10 * i) 300).2 (by decide)⟩

/-! ### Read-loop lemmas -/

/-- A fully successful, non-final read iteration advances the loop to the
next iteration with one more byte counted. -/
theorem read_loop_step (env : Nat → ReadIterEnv) (len i count fuel : Nat)
    (h1 : (env i).clkReleaseOk = true) (h2 : (env i).clkInWindow = true)
    (h3 : (env i).byteOk = true) (h4 : (env i).usbOk = true)
    (h5 : (count + 1) % 2 ^ 16 ≠ len) :
    cbm_raw_read_loop env len i count false (fuel + 1) =
      cbm_raw_read_loop env len (i + 1) ((count + 1) % 2 ^ 16) false fuel := by
  have h5' : ((count + 1) % 2 ^ 16 != len) = true := by simpa using h5
  simp [cbm_raw_read_loop, h1, h2, h3, h4, h5']
  intro h
  exact absurd h (by simpa using h5)

/-- A read iteration in which the EOI window elapses without CLOCK but the
byte transfer itself succeeds latches `eoi`, counts the byte, and leaves the
loop. -/
theorem read_loop_eoi_step (env : Nat → ReadIterEnv) (len i count fuel : Nat)
    (h1 : (env i).clkReleaseOk = true) (h2 : (env i).clkInWindow = false)
    (h3 : (env i).byteOk = true) (h4 : (env i).usbOk = true) :
    cbm_raw_read_loop env len i count false (fuel + 1) =
      ((count + 1) % 2 ^ 16, true) := by
  simp [cbm_raw_read_loop, h1, h2, h3, h4]

/-- A read iteration in which a 2 ms bit-wait bound is violated zeroes the
count, whatever its value was. -/
theorem read_loop_timeout_step (env : Nat → ReadIterEnv)
    (len i count fuel : Nat)
    (h1 : (env i).clkReleaseOk = true) (h2 : (env i).clkInWindow = true)
    (h3 : (env i).byteOk = false) :
    cbm_raw_read_loop env len i count false (fuel + 1) = (0, false) := by
  simp [cbm_raw_read_loop, h1, h2, h3]

/-- With the `eoi` latch set, a read iteration whose initial CLOCK-release
wait succeeds returns 0 at once. -/
theorem read_loop_latched_step (env : Nat → ReadIterEnv)
    (len i count fuel : Nat) (h : (env i).clkReleaseOk = true) :
    cbm_raw_read_loop env len i count true (fuel + 1) = (0, true) := by
  simp [cbm_raw_read_loop, h]

/-- `k` fully successful read iterations advance the loop by `k` bytes. -/
theorem read_loop_advance (env : Nat → ReadIterEnv) (len : Nat)
    (hlen : len < 2 ^ 16) :
    ∀ k i count fuel, count + k < len → k + 1 ≤ fuel →
      (∀ j, j < k → ReadIterOk (env (i + j))) →
      cbm_raw_read_loop env len i count false fuel =
        cbm_raw_read_loop env len (i + k) (count + k) false (fuel - k) := by
  intro k
  induction k with
  | zero => intro i count fuel _ _ _; simp
  | succ k ih =>
    intro i count fuel hcount hfuel hgood
    obtain ⟨f, rfl⟩ : ∃ f, fuel = f + 1 := ⟨fuel - 1, by omega⟩
    obtain ⟨e1, e2, e3, e4⟩ : ReadIterOk (env i) := by
      have := hgood 0 (by omega)
      simpa using this
    have hmod : (count + 1) % 2 ^ 16 = count + 1 :=
      Nat.mod_eq_of_lt (by omega)
    rw [read_loop_step env len i count f e1 e2 e3 e4 (by omega), hmod,
      ih (i + 1) (count + 1) f (by omega) (by omega)
        (fun j hj => by
          have := hgood (j + 1) (by omega)
          rwa [show i + (j + 1) = i + 1 + j by omega] at this)]
    rw [show i + 1 + k = i + (k + 1) by omega,
      show count + 1 + k = count + (k + 1) by omega,
      show f - k = f + 1 - (k + 1) by omega]

/-- C1 counterexample to the claim as stated: in this call the EOI detect
window elapses without CLOCK being asserted on the very first byte
(`clkInWindow = false` at iteration 0, every other wait succeeding), yet
the call returns a count of 1, not 0 — the final byte is still read and
counted in the same call. -/
theorem eoi_call_count_counterexample :
    ((fun i => ReadIterEnv.mk true (i != 0) true 42 true) 0).clkInWindow
        = false ∧
    cbm_raw_read (fun i => ReadIterEnv.mk true (i != 0) true 42 true) 5 false
        = (1, true) := by
  decide

/-- C1 (amended): when the EOI detect window elapses without CLOCK being
asserted on byte `k + 1` of a read call (all other bounded waits
succeeding), the `eoi` latch is set and that call still reads the final
byte, returning the nonzero count `k + 1`; the subsequent read call, whose
initial CLOCK-release wait observes CLOCK released, returns 0 without
reading any byte. -/
theorem eoi_latch_amended :
    (∀ (env : Nat → ReadIterEnv) (len k : Nat), len < 2 ^ 16 → k < len →
      (∀ j, j ≤ k → (env j).clkReleaseOk = true ∧ (env j).byteOk = true ∧
        (env j).usbOk = true) →
      (∀ j, j < k → (env j).clkInWindow = true) →
      (env k).clkInWindow = false →
      cbm_raw_read env len false = (k + 1, true)) ∧
    (∀ (env : Nat → ReadIterEnv) (len : Nat),
      (env 0).clkReleaseOk = true →
      cbm_raw_read env len true = (0, true)) := by
  constructor
  · intro env len k hlen hk hgood hwin heoi
    rw [cbm_raw_read,
      read_loop_advance env len hlen k 0 0 (2 ^ 16 + 1) (by omega) (by omega)
        (fun j hj => by
          rw [Nat.zero_add]
          obtain ⟨a, b, c⟩ := hgood j (by omega)
          exact ⟨a, hwin j hj, b, c⟩)]
    obtain ⟨f, hf⟩ : ∃ f, 2 ^ 16 + 1 - k = f + 1 := ⟨2 ^ 16 - k, by omega⟩
    obtain ⟨a, b, c⟩ := hgood k le_rfl
    rw [hf, show (0 : Nat) + k = k by omega,
      read_loop_eoi_step env len k k f a heoi b c,
      Nat.mod_eq_of_lt (by omega)]
  · intro env len h
    rw [cbm_raw_read]
    exact read_loop_latched_step env len 0 0 (2 ^ 16) h

/-- C1 witness: with the EOI window elapsing on the third byte, the call
returns 3 with the latch set; a subsequent call entered with the latch set
returns 0. -/
theorem eoi_latch_amended_witness :
    cbm_raw_read (fun i => ReadIterEnv.mk true (i != 2) true 7 true) 5 false
        = (3, true) ∧
    cbm_raw_read (fun _ => ReadIterEnv.mk true true true 7 true) 9 true
        = (0, true) := by
  constructor
  · exact eoi_latch_amended.1 _ 5 2 (by decide) (by decide)
      (fun j _ => ⟨rfl, rfl, rfl⟩)
      (fun j hj => by interval_cases j <;> rfl)
      rfl
  · exact eoi_latch_amended.2 _ 9 rfl

/-! ### Write-loop lemmas -/

/-- A successful non-final write iteration (at least 2 bytes remaining)
sends one byte without the EOI delay sequence. -/
theorem write_loop_step (env : Nat → WriteIterEnv) (atn : Bool)
    (len rv i : Nat) (tr : List WriteAct) (fuel : Nat)
    (hlen : 2 ≤ len) (hrv : rv ≠ 0)
    (h : WriteIterOk (env i)) :
    cbm_raw_write_loop env atn len rv i tr (fuel + 1) =
      cbm_raw_write_loop env atn (len - 1) rv (i + 1) (tr ++ [.sendByte])
        fuel := by
  obtain ⟨e1, e2, e3, e4⟩ := h
  have hl0 : (len == 0) = false := by simp; omega
  have hr0 : (rv == 0) = false := by simp [hrv]
  have hl1 : (len == 1) = false := by simp; omega
  simp [cbm_raw_write_loop, hl0, hr0, hl1, e1, e2, e3, e4]

/-- The successful final iteration of a non-ATN write performs the EOI
delay sequence and sends the last byte. -/
theorem write_loop_final_step (env : Nat → WriteIterEnv)
    (rv i : Nat) (tr : List WriteAct) (fuel : Nat)
    (hrv : rv ≠ 0) (h : WriteIterOk (env i)) :
    cbm_raw_write_loop env false 1 rv i tr (fuel + 1 + 1) =
      (rv, tr ++ [.eoiSeq 1, .sendByte]) := by
  obtain ⟨e1, e2, e3, e4⟩ := h
  have hr0 : (rv == 0) = false := by simp [hrv]
  simp [cbm_raw_write_loop, hr0, e1, e2, e3, e4]

/-- A write iteration in which `send_byte` sees no acknowledgment within
2 ms zeroes the return value, regardless of how many bytes were already
sent. -/
theorem write_loop_nak (env : Nat → WriteIterEnv) (atn : Bool)
    (len rv i : Nat) (tr : List WriteAct) (fuel : Nat)
    (hlen : 1 ≤ len) (hrv : rv ≠ 0)
    (h1 : (env i).dataPulled = true) (h2 : (env i).listenerOk = true)
    (h3 : (env i).recvOk = true) (h4 : (env i).sendAck = false) :
    (cbm_raw_write_loop env atn len rv i tr (fuel + 1 + 1)).1 = 0 := by
  have hl0 : (len == 0) = false := by simp; omega
  have hr0 : (rv == 0) = false := by simp [hrv]
  simp [cbm_raw_write_loop, hl0, hr0, h1, h2, h3, h4, apply_ite]


/-- `k` successful non-final write iterations send `k` bytes, none of them
with the EOI delay sequence. -/
theorem write_loop_advance (env : Nat → WriteIterEnv) (atn : Bool) :
    ∀ k len rv i tr fuel, k < len → rv ≠ 0 → k + 1 ≤ fuel →
      (∀ j, j < k → WriteIterOk (env (i + j))) →
      cbm_raw_write_loop env atn len rv i tr fuel =
        cbm_raw_write_loop env atn (len - k) rv (i + k)
          (tr ++ List.replicate k .sendByte) (fuel - k) := by
  intro k
  induction k with
  | zero => intro len rv i tr fuel _ _ _ _; simp
  | succ k ih =>
    intro len rv i tr fuel hk hrv hfuel hgood
    obtain ⟨f, rfl⟩ : ∃ f, fuel = f + 1 := ⟨fuel - 1, by omega⟩
    rw [write_loop_step env atn len rv i tr f (by omega) hrv
        (by simpa using hgood 0 (by omega)),
      ih (len - 1) rv (i + 1) (tr ++ [WriteAct.sendByte]) f (by omega) hrv (by omega)
        (fun j hj => by
          rw [show i + 1 + j = i + (j + 1) by omega]
          exact hgood (j + 1) (by omega))]
    rw [show len - 1 - k = len - (k + 1) by omega,
      show i + 1 + k = i + (k + 1) by omega,
      show f - k = f + 1 - (k + 1) by omega,
      List.append_assoc]
    simp [List.replicate_succ]

/-- With the ATN flag set the write loop never performs the EOI delay
sequence, on any byte of any run. -/
theorem write_loop_atn_no_eoi_seq (env : Nat → WriteIterEnv) :
    ∀ fuel len rv i tr,
      ((cbm_raw_write_loop env true len rv i tr fuel).2).filter
          WriteAct.isEoiSeq
        = tr.filter WriteAct.isEoiSeq := by
  intro fuel
  induction fuel with
  | zero => intro len rv i tr; rfl
  | succ fuel ih =>
    intro len rv i tr
    rw [cbm_raw_write_loop]
    simp only [Bool.not_true, Bool.and_false, if_false]
    split
    · rfl
    · split
      · split
        · rfl
        · split
          · rfl
          · split
            · rw [ih]
              simp [List.filter_append, WriteAct.isEoiSeq]
            · rw [ih]
              simp [List.filter_append, WriteAct.isEoiSeq]
      · rw [ih]

/-- A run of `sendByte` actions contains no EOI delay sequence. -/
theorem filter_replicate_send_byte (n : Nat) :
    (List.replicate n WriteAct.sendByte).filter WriteAct.isEoiSeq = [] := by
  induction n with
  | zero => rfl
  | succ n ih => simp [List.replicate_succ, ih, WriteAct.isEoiSeq]

/-- A fully successful non-ATN write of `len` bytes sends `len - 1` plain
bytes and then the final byte preceded by the EOI delay sequence. -/
theorem write_loop_success_trace (env : Nat → WriteIterEnv) :
    ∀ len rv i tr, 0 < len → rv ≠ 0 →
      (∀ j, j < len → WriteIterOk (env (i + j))) →
      cbm_raw_write_loop env false len rv i tr (len + 1) =
        (rv, tr ++ List.replicate (len - 1) .sendByte ++
          [.eoiSeq 1, .sendByte]) := by
  intro len rv i tr hlen hrv hgood
  rw [write_loop_advance env false (len - 1) len rv i tr (len + 1)
      (by omega) hrv (by omega) (fun j hj => hgood j (by omega)),
    show len - (len - 1) = 1 by omega,
    show len + 1 - (len - 1) = 0 + 1 + 1 by omega,
    write_loop_final_step env rv (i + (len - 1)) _ 0 hrv
      (hgood (len - 1) (by omega))]


/-- C5: in a fully successful `cbm_raw_write` of `len > 0` bytes with the
ATN flag not set, the extended EOI delay sequence is performed exactly
once, at the point where the remaining count equals 1 (the final byte); in
every transfer with ATN set — complete or not — it is never performed. -/
theorem eoi_sequence_exactly_on_final_byte :
    (∀ (env : WriteEnv) (len : Nat) (talk : Bool),
      env.devPresent = true → 0 < len →
      (∀ j, j < len → WriteIterOk (env.iters j)) →
      ((cbm_raw_write env len false talk).2).filter WriteAct.isEoiSeq =
        [.eoiSeq 1]) ∧
    (∀ (env : WriteEnv) (len : Nat) (talk : Bool),
      ((cbm_raw_write env len true talk).2).filter WriteAct.isEoiSeq =
        []) := by
  constructor
  · intro env len talk hdev hlen hgood
    rw [cbm_raw_write, hdev, if_neg (by simp)]
    rw [write_loop_success_trace env.iters len len 0 [.probe true] hlen
      (by omega) (fun j hj => by rw [Nat.zero_add]; exact hgood j hj)]
    by_cases ht : talk <;> by_cases hc : env.talkClkOk <;>
      simp [ht, hc, List.filter_append, filter_replicate_send_byte,
        WriteAct.isEoiSeq, show len ≠ 0 by omega]
  · intro env len talk
    rw [cbm_raw_write]
    by_cases hdev : env.devPresent
    · rw [hdev, if_neg (by simp)]
      have hfil := write_loop_atn_no_eoi_seq env.iters (len + 1) len len 0
        [.probe true]
      have hXnil : List.filter WriteAct.isEoiSeq
          (cbm_raw_write_loop env.iters true len len 0 [WriteAct.probe true]
            (len + 1)).2 = [] := by
        rw [hfil]
        rfl
      rw [apply_ite Prod.snd]
      simp only [apply_ite (List.filter WriteAct.isEoiSeq),
        List.filter_append, hXnil]
      simp [WriteAct.isEoiSeq]
    · simp only [Bool.not_eq_true] at hdev
      rw [hdev]
      simp [WriteAct.isEoiSeq]

/-- C5 witness: a fully successful 3-byte write without ATN performs the
EOI delay sequence exactly once at remaining count 1; the same transfer
with ATN performs it never. -/
theorem eoi_sequence_exactly_on_final_byte_witness :
    ((cbm_raw_write ⟨true, fun _ => ⟨true, true, true, true⟩, true⟩ 3 false
        false).2).filter WriteAct.isEoiSeq = [.eoiSeq 1] ∧
    ((cbm_raw_write ⟨true, fun _ => ⟨true, true, true, true⟩, true⟩ 3 true
        false).2).filter WriteAct.isEoiSeq = [] := by
  constructor
  · exact eoi_sequence_exactly_on_final_byte.1 _ 3 false rfl (by decide)
      (fun j _ => ⟨rfl, rfl, rfl, rfl⟩)
  · exact eoi_sequence_exactly_on_final_byte.2 _ 3 false

/-- C4 counterexample to the claim as stated: in this read call the first
iteration transfers a byte successfully and the second iteration's 2 ms
bit-wait bound is violated, yet the call returns 0, not the
partial-progress count 1. -/
theorem timeout_partial_count_counterexample :
    ReadIterOk ((fun i => ReadIterEnv.mk true true (i != 1) 9 true) 0) ∧
    ((fun i => ReadIterEnv.mk true true (i != 1) 9 true) 1).byteOk = false ∧
    (cbm_raw_read (fun i => ReadIterEnv.mk true true (i != 1) 9 true) 2
      false).1 = 0 := by
  decide

/-- C4 (amended): when a bounded wait times out after `k` bytes have
already been transferred, the operation returns 0, not the partial count:
`cbm_raw_read` zeroes its count when a 2 ms bit wait fails, and
`cbm_raw_write` returns 0 when `send_byte` goes unacknowledged, however
many bytes were already sent. -/
theorem timeout_returns_zero_not_partial :
    (∀ (env : Nat → ReadIterEnv) (len k : Nat), len < 2 ^ 16 → k < len →
      (∀ j, j < k → ReadIterOk (env j)) →
      (env k).clkReleaseOk = true → (env k).clkInWindow = true →
      (env k).byteOk = false →
      cbm_raw_read env len false = (0, false)) ∧
    (∀ (env : WriteEnv) (len k : Nat) (atn talk : Bool),
      env.devPresent = true → k < len →
      (∀ j, j < k → WriteIterOk (env.iters j)) →
      (env.iters k).dataPulled = true → (env.iters k).listenerOk = true →
      (env.iters k).recvOk = true → (env.iters k).sendAck = false →
      (cbm_raw_write env len atn talk).1 = 0) := by
  constructor
  · intro env len k hlen hk hgood h1 h2 h3
    rw [cbm_raw_read,
      read_loop_advance env len hlen k 0 0 (2 ^ 16 + 1) (by omega) (by omega)
        (fun j hj => by rw [Nat.zero_add]; exact hgood j hj)]
    obtain ⟨f, hf⟩ : ∃ f, 2 ^ 16 + 1 - k = f + 1 := ⟨2 ^ 16 - k, by omega⟩
    rw [hf, show (0 : Nat) + k = k by omega,
      read_loop_timeout_step env len k k f h1 h2 h3]
  · intro env len k atn talk hdev hk hgood h1 h2 h3 h4
    rw [cbm_raw_write, hdev, if_neg (by simp)]
    rw [write_loop_advance env.iters atn k len len 0 [WriteAct.probe true]
      (len + 1) hk (by omega) (by omega)
      (fun j hj => by rw [Nat.zero_add]; exact hgood j hj)]
    obtain ⟨f, hf⟩ : ∃ f, len + 1 - k = f + 1 + 1 := ⟨len - k - 1, by omega⟩
    rw [hf, show (0 : Nat) + k = k by omega]
    have hnak := write_loop_nak env.iters atn (len - k) len k
      ([WriteAct.probe true] ++ List.replicate k WriteAct.sendByte) f
      (by omega) (by omega) h1 h2 h3 h4
    simp only [List.singleton_append] at hnak
    simp [apply_ite Prod.fst, hnak]

/-- C4 witness: a read of 3 with a bit-wait timeout on the second byte
returns 0; a write of 3 with an unacknowledged second byte returns 0. -/
theorem timeout_returns_zero_not_partial_witness :
    cbm_raw_read (fun i => ReadIterEnv.mk true true (i != 1) 9 true) 3 false
        = (0, false) ∧
    (cbm_raw_write ⟨true, fun i => ⟨true, true, true, i != 1⟩, true⟩ 3 false
        false).1 = 0 := by
  constructor
  · exact timeout_returns_zero_not_partial.1 _ 3 1 (by decide) (by decide)
      (fun j hj => by interval_cases j; exact ⟨rfl, rfl, rfl, rfl⟩)
      rfl rfl rfl
  · exact timeout_returns_zero_not_partial.2 _ 3 1 false false rfl
      (by decide)
      (fun j hj => by interval_cases j; exact ⟨rfl, rfl, rfl, rfl⟩)
      rfl rfl rfl rfl

end IecSpec
